import Mathlib

/-!
Shallow embedding of the Serene_Springs building-grid subsystem
(`Source/Grid`): the grid coordinate model, footprint rotation,
placement validation, occupancy mutation, and the building entity's
staff/efficiency logic, translated from the C++ sources.

Conventions of the embedding:
* `int32` values are modelled as `Int` (no arithmetic in the modelled
  code paths comes near 2^31).
* `float` values (world coordinates, cell size, efficiency) are
  modelled as exact rationals `ℚ`; `FMath::FloorToInt` is `Int.floor`,
  and `0.5f` is `1/2`.
* The C++ `%` on `int32` truncates toward zero; for the positive
  divisors used by the code (4 and 2) this is `cppMod` below.
* `AActor*` references are modelled as handles: `Option Nat` indices
  into the manager's building table.  `SpawnActor` with
  `AlwaysSpawn` is modelled as always succeeding; `Destroy` removes
  the handle from the table (a destroyed actor no longer casts to
  `ABuildingObject`).
* The `TArray`-of-rows grid store is modelled as a total function
  `Int → Int → Int → GridCellData` (floor, y, x); every mutation in
  the sources is guarded by `IsValidGridPosition`, so only in-bounds
  entries are ever written.
-/

namespace SereneSprings

/-- `FIntPoint`. -/
structure IntPoint where
  x : Int
  y : Int
deriving DecidableEq, Repr

/-- `FVector` (world-space position), with float modelled as `ℚ`. -/
structure FVector where
  x : ℚ
  y : ℚ
  z : ℚ
deriving DecidableEq, Repr

/-- `EBuildingType` from EGridTypes.h. -/
inductive EBuildingType where
  | None
  | StandardRoom
  | Suite
  | Villa
  | MassageRoom
  | YogaStudio
  | MeditationRoom
  | Restaurant
  | JuiceBar
  | Garden
  | StaffRoom
  | Office
  | Utility
deriving DecidableEq, Repr

/-- `EGridDirection` from EGridTypes.h. -/
inductive EGridDirection where
  | North
  | East
  | South
  | West
  | Any
deriving DecidableEq, Repr

/-- `EGridCellVisualState` from EGridTypes.h. -/
inductive EGridCellVisualState where
  | Normal
  | Valid
  | Invalid
  | Selected
  | Highlighted
deriving DecidableEq, Repr

/-- `FGridCellData`; the field defaults are the C++ default
constructor (`GridPosition`/`ObjectOrigin` zero, in-class
initializers for the rest). -/
structure GridCellData where
  gridPosition : IntPoint := ⟨0, 0⟩
  bIsOccupied : Bool := false
  bIsWalkable : Bool := true
  floorLevel : Int := 0
  objectOrigin : IntPoint := ⟨0, 0⟩
  occupyingObject : Option Nat := none
  pathCost : ℚ := 1
  visualState : EGridCellVisualState := EGridCellVisualState.Normal
  bHasWaterConnection : Bool := false
  bHasElectricalConnection : Bool := false
deriving DecidableEq, Repr

/-- `FBuildingFootprint`: rectangular `Size` plus optional explicit
cell-offset list. -/
structure BuildingFootprint where
  size : IntPoint := ⟨1, 1⟩
  occupiedCells : List IntPoint := []
deriving DecidableEq, Repr

/-- C++ truncated `%` (the semantics of `int32 % d` for a positive
divisor `d`): the remainder has the sign of the dividend. -/
def cppMod (a d : Int) : Int :=
  if a < 0 then -((-a) % d) else a % d

/-- `FBuildingFootprint::RotatePoint`: `Quarters % 4` with the C++
truncated `%`, then the four-case switch whose `default` returns the
point unchanged. -/
def rotatePoint (p : IntPoint) (quarters : Int) : IntPoint :=
  let q := cppMod quarters 4
  if q = 0 then p
  else if q = 1 then ⟨-p.y, p.x⟩
  else if q = 2 then ⟨-p.x, -p.y⟩
  else if q = 3 then ⟨p.y, -p.x⟩
  else p

/-- `FBuildingFootprint::RotateSize`: swap x/y when the reduced
rotation is odd (`Quarters % 2 == 1` after `Quarters % 4`). -/
def rotateSize (inSize : IntPoint) (quarters : Int) : IntPoint :=
  let q := cppMod quarters 4
  if cppMod q 2 = 1 then ⟨inSize.y, inSize.x⟩ else inSize

/-- `FBuildingFootprint::GetOccupiedCellPositions`: explicit cell
list if non-empty, otherwise the rotated rectangle; the nested C++
loops (outer X, inner Y) become `flatMap`/`map` over ranges. -/
def getOccupiedCellPositions (fp : BuildingFootprint) (origin : IntPoint)
    (rotationQuarters : Int) : List IntPoint :=
  if fp.occupiedCells ≠ [] then
    fp.occupiedCells.map (fun cell =>
      let r := rotatePoint cell rotationQuarters
      ⟨origin.x + r.x, origin.y + r.y⟩)
  else
    let rotatedSize := rotateSize fp.size rotationQuarters
    (List.range rotatedSize.x.toNat).flatMap (fun X =>
      (List.range rotatedSize.y.toNat).map (fun Y =>
        let r := rotatePoint ⟨(X : Int), (Y : Int)⟩ rotationQuarters
        ⟨origin.x + r.x, origin.y + r.y⟩))

/-- `FAdjacencyRequirement`. -/
structure AdjacencyRequirement where
  requiredBuildingType : EBuildingType := EBuildingType.None
  direction : EGridDirection := EGridDirection.Any
  bIsNegativeRequirement : Bool := false
deriving DecidableEq, Repr

/-- `UBuildingObjectAsset`, restricted to the fields the grid logic
reads.  `FName` staff-type keys are modelled as `Nat`. -/
structure BuildingObjectAsset where
  buildingType : EBuildingType := EBuildingType.None
  footprint : BuildingFootprint := {}
  requiredStaffTypes : List (Nat × Int) := []
  adjacencyRequirements : List AdjacencyRequirement := []
  maxGuests : Int := 1
  supportedTreatments : List Nat := []
  maintenanceCost : Int := 50
deriving DecidableEq, Repr

/-- `ABuildingObject`: the placed building entity.  Staff and guest
actors are modelled as `Nat` handles. -/
structure BuildingObject where
  buildingAsset : Option BuildingObjectAsset := none
  buildingType : EBuildingType := EBuildingType.None
  gridOrigin : IntPoint := ⟨0, 0⟩
  floorLevel : Int := 0
  gridRotation : Int := 0
  buildingState : Int := 0
  operationalEfficiency : ℚ := 100
  assignedStaff : List Nat := []
  currentGuests : List Nat := []
deriving DecidableEq, Repr

/-- `ABuildingObject::GetFootprint`: asset footprint when bound,
default 1×1 otherwise. -/
def getFootprint (b : BuildingObject) : BuildingFootprint :=
  match b.buildingAsset with
  | some asset => asset.footprint
  | none => { size := ⟨1, 1⟩, occupiedCells := [] }

/-- `ABuildingObject::UpdateEfficiency`: staff efficiency folded as
`min(acc, min(1, assignedCount/required) * 100)` starting from 100;
division is exact `ℚ` division (Lean's `x / 0 = 0` stands in for the
float division-by-zero the C++ would perform on a zero requirement). -/
def updateEfficiency (b : BuildingObject) : BuildingObject :=
  let newEfficiency : ℚ :=
    match b.buildingAsset with
    | none => 100
    | some asset =>
        asset.requiredStaffTypes.foldl
          (fun staffEfficiency req =>
            let staffRatio : ℚ :=
              min 1 ((b.assignedStaff.length : ℚ) / ((req.2 : ℚ)))
            min staffEfficiency (staffRatio * 100))
          100
  { b with operationalEfficiency := newEfficiency }

/-- `ABuildingObject::AssignStaffMember`: null fails, an
already-assigned member succeeds without mutation, otherwise the
member is appended and efficiency recomputed. -/
def assignStaffMember (b : BuildingObject) (staffMember : Option Nat) :
    BuildingObject × Bool :=
  match staffMember with
  | none => (b, false)
  | some s =>
      if s ∈ b.assignedStaff then (b, true)
      else
        (updateEfficiency { b with assignedStaff := b.assignedStaff ++ [s] },
         true)

/-- `ABuildingObject::RemoveStaffMember`: `TArray::Remove` deletes
every matching element; efficiency is recomputed only when something
was removed. -/
def removeStaffMember (b : BuildingObject) (staffMember : Option Nat) :
    BuildingObject × Bool :=
  match staffMember with
  | none => (b, false)
  | some s =>
      let newStaff := b.assignedStaff.filter (fun t => t ≠ s)
      if newStaff.length < b.assignedStaff.length then
        (updateEfficiency { b with assignedStaff := newStaff }, true)
      else (b, false)

/-- `ABuildingGridManager` state: grid dimensions, the cell store,
and the table of spawned building actors. -/
structure BuildingGridManager where
  gridSizeX : Int := 50
  gridSizeY : Int := 50
  cellSize : ℚ := 100
  maxFloors : Int := 5
  floorHeight : ℚ := 400
  actorLocation : FVector := ⟨0, 0, 0⟩
  gridData : Int → Int → Int → GridCellData
  buildings : Nat → Option BuildingObject := fun _ => none
  nextBuildingId : Nat := 0

/-- `FMath::Clamp` as implemented by the engine:
`X < Min ? Min : (X < Max ? X : Max)`. -/
def clampInt (v lo hi : Int) : Int :=
  if v < lo then lo else if v < hi then v else hi

/-- `ABuildingGridManager::IsValidGridPosition`. -/
def isValidGridPosition (m : BuildingGridManager) (p : IntPoint)
    (floorLevel : Int) : Bool :=
  decide (0 ≤ floorLevel) && decide (floorLevel < m.maxFloors) &&
  decide (0 ≤ p.x) && decide (p.x < m.gridSizeX) &&
  decide (0 ≤ p.y) && decide (p.y < m.gridSizeY)

/-- `ABuildingGridManager::WorldToGrid`: clamp the floored floor and
x/y indices; the half-cell offset is added before flooring. -/
def worldToGrid (m : BuildingGridManager) (worldPosition : FVector) :
    IntPoint × Int :=
  let outFloorLevel :=
    clampInt ⌊worldPosition.z / m.floorHeight⌋ 0 (m.maxFloors - 1)
  let gridX :=
    (worldPosition.x - m.actorLocation.x + m.cellSize * (1/2)) / m.cellSize
  let gridY :=
    (worldPosition.y - m.actorLocation.y + m.cellSize * (1/2)) / m.cellSize
  let X := clampInt ⌊gridX⌋ 0 (m.gridSizeX - 1)
  let Y := clampInt ⌊gridY⌋ 0 (m.gridSizeY - 1)
  (⟨X, Y⟩, outFloorLevel)

/-- `ABuildingGridManager::GridToWorld`: returns the center of the
cell. -/
def gridToWorld (m : BuildingGridManager) (gridPosition : IntPoint)
    (floorLevel : Int) : FVector :=
  let worldX := m.actorLocation.x + (gridPosition.x : ℚ) * m.cellSize
  let worldY := m.actorLocation.y + (gridPosition.y : ℚ) * m.cellSize
  let worldZ := m.actorLocation.z + (floorLevel : ℚ) * m.floorHeight
  ⟨worldX + m.cellSize * (1/2), worldY + m.cellSize * (1/2), worldZ⟩

/-- `ABuildingGridManager::GetCellData`: in-bounds reads hit the
store, out-of-bounds queries return a default-constructed cell. -/
def getCellData (m : BuildingGridManager) (gridPosition : IntPoint)
    (floorLevel : Int) : GridCellData :=
  if isValidGridPosition m gridPosition floorLevel then
    m.gridData floorLevel gridPosition.y gridPosition.x
  else {}

/-- `ABuildingGridManager::InitializeGrid`: stores the dimensions and
rebuilds every cell with the documented defaults (ground floor gets
the utility connections). -/
def initializeGrid (m : BuildingGridManager) (sizeX sizeY : Int)
    (cellSizeValue : ℚ) (maxFloorsValue : Int) : BuildingGridManager :=
  { m with
    gridSizeX := sizeX
    gridSizeY := sizeY
    cellSize := cellSizeValue
    maxFloors := maxFloorsValue
    gridData := fun floor y x =>
      { gridPosition := ⟨x, y⟩
        floorLevel := floor
        bIsOccupied := false
        bIsWalkable := true
        objectOrigin := ⟨x, y⟩
        occupyingObject := none
        pathCost := 1
        visualState := EGridCellVisualState.Normal
        bHasWaterConnection := decide (floor = 0)
        bHasElectricalConnection := decide (floor = 0) } }

/-- Write one cell of the store. -/
def setCell (g : Int → Int → Int → GridCellData) (floorLevel : Int)
    (c : IntPoint) (v : GridCellData) : Int → Int → Int → GridCellData :=
  fun f y x => if f = floorLevel ∧ y = c.y ∧ x = c.x then v else g f y x

/-- `ABuildingGridManager::AreCellsAvailableForBuilding`: every
footprint cell must be in bounds and unoccupied, and on upper floors
the cell directly below must be occupied. -/
def areCellsAvailableForBuilding (m : BuildingGridManager)
    (footprint : BuildingFootprint) (gridOrigin : IntPoint)
    (rotation floorLevel : Int) : Bool :=
  (getOccupiedCellPositions footprint gridOrigin rotation).all fun cell =>
    isValidGridPosition m cell floorLevel &&
    !(m.gridData floorLevel cell.y cell.x).bIsOccupied &&
    (!(decide (0 < floorLevel)) ||
      (m.gridData (floorLevel - 1) cell.y cell.x).bIsOccupied)

/-- The neighbor cells `CheckAdjacencyRequirements` builds for a
requirement's direction (north, east, south, west in that order;
`Any` adds all four). -/
def cellsToCheck (direction : EGridDirection) (gridOrigin : IntPoint) :
    List IntPoint :=
  (if direction = EGridDirection.North ∨ direction = EGridDirection.Any then
    [⟨gridOrigin.x, gridOrigin.y - 1⟩] else []) ++
  (if direction = EGridDirection.East ∨ direction = EGridDirection.Any then
    [⟨gridOrigin.x + 1, gridOrigin.y⟩] else []) ++
  (if direction = EGridDirection.South ∨ direction = EGridDirection.Any then
    [⟨gridOrigin.x, gridOrigin.y + 1⟩] else []) ++
  (if direction = EGridDirection.West ∨ direction = EGridDirection.Any then
    [⟨gridOrigin.x - 1, gridOrigin.y⟩] else [])

/-- Does this cell hold a resolvable building of the given type?
(occupied flag set, occupant reference present, the occupant still
casts to a building, exact type match). -/
def cellHasBuildingOfType (m : BuildingGridManager) (cell : IntPoint)
    (floorLevel : Int) (t : EBuildingType) : Bool :=
  isValidGridPosition m cell floorLevel &&
  (m.gridData floorLevel cell.y cell.x).bIsOccupied &&
  (match (m.gridData floorLevel cell.y cell.x).occupyingObject with
   | none => false
   | some id =>
       match m.buildings id with
       | none => false
       | some b => b.buildingType = t)

/-- The loop body of `CheckAdjacencyRequirements` for one
requirement: skip `None`; otherwise scan the neighbor cells for a
match, negated for negative requirements. -/
def requirementCheck (m : BuildingGridManager) (req : AdjacencyRequirement)
    (gridOrigin : IntPoint) (floorLevel : Int) : Bool :=
  if req.requiredBuildingType = EBuildingType.None then true
  else
    let bFoundMatch :=
      (cellsToCheck req.direction gridOrigin).any fun cell =>
        cellHasBuildingOfType m cell floorLevel req.requiredBuildingType
    if req.bIsNegativeRequirement then !bFoundMatch else bFoundMatch

/-- `ABuildingGridManager::CheckAdjacencyRequirements`: skip `None`
requirements; positive requirements need a matching neighbor,
negative requirements must not find one (the early `return true` on
an empty list coincides with `all` over the empty list). -/
def checkAdjacencyRequirements (m : BuildingGridManager)
    (requirements : List AdjacencyRequirement) (gridOrigin : IntPoint)
    (floorLevel : Int) : Bool :=
  requirements.all fun req => requirementCheck m req gridOrigin floorLevel

/-- `ABuildingGridManager::CanPlaceBuilding`: null asset fails;
resolve the grid origin and floor, then footprint availability and
adjacency. -/
def canPlaceBuilding (m : BuildingGridManager)
    (buildingAsset : Option BuildingObjectAsset) (worldLocation : FVector)
    (rotation floorLevel : Int) : Bool :=
  match buildingAsset with
  | none => false
  | some asset =>
      let p := worldToGrid m worldLocation
      let resolvedFloor := if floorLevel < 0 then p.2 else floorLevel
      areCellsAvailableForBuilding m asset.footprint p.1 rotation
        resolvedFloor &&
      checkAdjacencyRequirements m asset.adjacencyRequirements p.1
        resolvedFloor

/-- One iteration of the `MarkCellsAsOccupied` loop: an in-bounds
cell gets the occupied flag, the occupant back-reference and the
shared origin point. -/
def occupyCellStep (m : BuildingGridManager) (floorLevel : Int)
    (buildingId : Nat) (gridOrigin : IntPoint)
    (g : Int → Int → Int → GridCellData) (cell : IntPoint) :
    Int → Int → Int → GridCellData :=
  if isValidGridPosition m cell floorLevel then
    setCell g floorLevel cell
      { g floorLevel cell.y cell.x with
        bIsOccupied := true
        occupyingObject := some buildingId
        objectOrigin := gridOrigin }
  else g

/-- `ABuildingGridManager::MarkCellsAsOccupied`. -/
def markCellsAsOccupied (m : BuildingGridManager)
    (footprint : BuildingFootprint) (gridOrigin : IntPoint)
    (rotation floorLevel : Int) (buildingId : Nat) : BuildingGridManager :=
  { m with
    gridData :=
      (getOccupiedCellPositions footprint gridOrigin rotation).foldl
        (occupyCellStep m floorLevel buildingId gridOrigin) m.gridData }

/-- One iteration of the `MarkCellsAsUnoccupied` loop: an in-bounds
cell loses the occupied flag and back-reference and gets its origin
reset to itself. -/
def unoccupyCellStep (m : BuildingGridManager) (floorLevel : Int)
    (g : Int → Int → Int → GridCellData) (cell : IntPoint) :
    Int → Int → Int → GridCellData :=
  if isValidGridPosition m cell floorLevel then
    setCell g floorLevel cell
      { g floorLevel cell.y cell.x with
        bIsOccupied := false
        occupyingObject := none
        objectOrigin := cell }
  else g

/-- `ABuildingGridManager::MarkCellsAsUnoccupied`: clear the flag and
back-reference, reset each cell's origin to itself. -/
def markCellsAsUnoccupied (m : BuildingGridManager)
    (footprint : BuildingFootprint) (gridOrigin : IntPoint)
    (rotation floorLevel : Int) : BuildingGridManager :=
  { m with
    gridData :=
      (getOccupiedCellPositions footprint gridOrigin rotation).foldl
        (unoccupyCellStep m floorLevel) m.gridData }

/-- `ABuildingGridManager::PlaceBuilding`: re-validate, spawn the
entity (always succeeds in the model), initialize it from the asset,
set its grid properties, and mark the footprint occupied. -/
def placeBuilding (m : BuildingGridManager)
    (buildingAsset : Option BuildingObjectAsset) (worldLocation : FVector)
    (rotation floorLevel : Int) : BuildingGridManager × Option Nat :=
  if canPlaceBuilding m buildingAsset worldLocation rotation floorLevel then
    match buildingAsset with
    | none => (m, none)
    | some asset =>
        let p := worldToGrid m worldLocation
        let resolvedFloor := if floorLevel < 0 then p.2 else floorLevel
        let buildingId := m.nextBuildingId
        let building : BuildingObject :=
          { buildingAsset := some asset
            buildingType := asset.buildingType
            gridOrigin := p.1
            floorLevel := resolvedFloor
            gridRotation := rotation
            buildingState := 0
            operationalEfficiency := 100
            assignedStaff := []
            currentGuests := [] }
        let m1 :=
          { m with
            buildings := fun i =>
              if i = buildingId then some building else m.buildings i
            nextBuildingId := buildingId + 1 }
        let m2 := markCellsAsOccupied m1 asset.footprint p.1 rotation
          resolvedFloor buildingId
        (m2, some buildingId)
  else (m, none)

/-- `ABuildingGridManager::RemoveBuilding`: fail on invalid position,
unoccupied cell or unresolvable occupant; otherwise vacate the
occupant's own footprint and destroy it. -/
def removeBuilding (m : BuildingGridManager) (gridPosition : IntPoint)
    (floorLevel : Int) : BuildingGridManager × Bool :=
  if isValidGridPosition m gridPosition floorLevel then
    if (m.gridData floorLevel gridPosition.y gridPosition.x).bIsOccupied then
      match (m.gridData floorLevel gridPosition.y gridPosition.x).occupyingObject with
      | none => (m, false)
      | some id =>
          match m.buildings id with
          | none => (m, false)
          | some building =>
              let footprint := getFootprint building
              let m1 := markCellsAsUnoccupied m footprint
                building.gridOrigin building.gridRotation
                building.floorLevel
              let m2 :=
                { m1 with
                  buildings := fun i =>
                    if i = id then none else m1.buildings i }
              (m2, true)
    else (m, false)
  else (m, false)

/-! ### Spec-side definitions (for the refinement claims) -/

/-- The neighbor cells the spec's adjacency rule says are checked:
one cell for a cardinal direction, all four for `Any`.  Written from
the claim's words, to be compared with the code's `cellsToCheck`. -/
def claimNeighbors (direction : EGridDirection) (origin : IntPoint) :
    List IntPoint :=
  match direction with
  | EGridDirection.North => [⟨origin.x, origin.y - 1⟩]
  | EGridDirection.East => [⟨origin.x + 1, origin.y⟩]
  | EGridDirection.South => [⟨origin.x, origin.y + 1⟩]
  | EGridDirection.West => [⟨origin.x - 1, origin.y⟩]
  | EGridDirection.Any =>
      [⟨origin.x, origin.y - 1⟩, ⟨origin.x + 1, origin.y⟩,
       ⟨origin.x, origin.y + 1⟩, ⟨origin.x - 1, origin.y⟩]

/-- Spec-side: the neighbor cell is in bounds and occupied by a
(resolvable) building of exactly the required type. -/
def claimNeighborMatch (m : BuildingGridManager) (floorLevel : Int)
    (cell : IntPoint) (t : EBuildingType) : Prop :=
  isValidGridPosition m cell floorLevel = true ∧
  (m.gridData floorLevel cell.y cell.x).bIsOccupied = true ∧
  ∃ id b, (m.gridData floorLevel cell.y cell.x).occupyingObject = some id ∧
    m.buildings id = some b ∧ b.buildingType = t

/-- Spec-side: a positive requirement needs at least one matching
checked neighbor; a negative requirement needs none. -/
def claimRequirementSatisfied (m : BuildingGridManager) (floorLevel : Int)
    (origin : IntPoint) (req : AdjacencyRequirement) : Prop :=
  if req.bIsNegativeRequirement then
    ¬ ∃ cell ∈ claimNeighbors req.direction origin,
        claimNeighborMatch m floorLevel cell req.requiredBuildingType
  else
    ∃ cell ∈ claimNeighbors req.direction origin,
        claimNeighborMatch m floorLevel cell req.requiredBuildingType

/-- Spec-side efficiency formula of claim C8:
`100 × min over all requirements of min(1, staffCount/required)`,
with 100 (the empty minimum over `1`) when there are no
requirements. -/
def claimEfficiency (staffCount : ℚ) (reqs : List (Nat × Int)) : ℚ :=
  100 * (reqs.map (fun req => min 1 (staffCount / (req.2 : ℚ)))).foldl min 1

/-- Claim C4's invariant on a raw cell store: a cell is flagged
occupied exactly when it holds an occupant reference. -/
def occupancyConsistentG (g : Int → Int → Int → GridCellData) : Prop :=
  ∀ f y x, ((g f y x).bIsOccupied = true ↔ (g f y x).occupyingObject ≠ none)

/-- Claim C4's invariant for a manager state. -/
def occupancyConsistent (m : BuildingGridManager) : Prop :=
  occupancyConsistentG m.gridData

/-! ### Concrete fixtures used by witnesses -/

/-- A 3×3 grid with 2 floors, cell size 100, floor height 400, the
manager actor at the world origin, all cells empty. -/
def mgr3x3 : BuildingGridManager :=
  { gridSizeX := 3
    gridSizeY := 3
    cellSize := 100
    maxFloors := 2
    floorHeight := 400
    actorLocation := ⟨0, 0, 0⟩
    gridData := fun _ y x => { gridPosition := ⟨x, y⟩, objectOrigin := ⟨x, y⟩ }
    buildings := fun _ => none
    nextBuildingId := 0 }

/-- A 1×1 standard-room asset. -/
def asset1x1 : BuildingObjectAsset :=
  { buildingType := EBuildingType.StandardRoom
    footprint := { size := ⟨1, 1⟩, occupiedCells := [] } }

/-- A 1×1×1 grid whose single cell is occupied by building 0 (an
asset-less building at origin (0,0), floor 0). -/
def mgrOccupied : BuildingGridManager :=
  { gridSizeX := 1
    gridSizeY := 1
    cellSize := 100
    maxFloors := 1
    floorHeight := 400
    actorLocation := ⟨0, 0, 0⟩
    gridData := fun _ _ _ =>
      { gridPosition := ⟨0, 0⟩
        bIsOccupied := true
        occupyingObject := some 0
        objectOrigin := ⟨0, 0⟩ }
    buildings := fun i => if i = 0 then some { buildingAsset := none } else none
    nextBuildingId := 1 }

/-- An asset requiring two staff members of one type. -/
def assetStaff2 : BuildingObjectAsset :=
  { buildingType := EBuildingType.MassageRoom
    requiredStaffTypes := [(0, 2)] }

/-- A freshly initialized building bound to `assetStaff2`. -/
def bldgStaff : BuildingObject := { buildingAsset := some assetStaff2 }

/-! ### Helper lemmas on the C++ truncated modulus and rotation -/

theorem cppMod_of_nonneg (a d : Int) (h : 0 ≤ a) : cppMod a d = a % d := by
  simp [cppMod, not_lt.mpr h]

theorem cppMod_add_four (r : Int) (h : 0 ≤ r) :
    cppMod (r + 4) 4 = cppMod r 4 := by
  rw [cppMod_of_nonneg _ _ (by omega), cppMod_of_nonneg _ _ h]
  omega

theorem cppMod_four_nonpos (r : Int) (h : r < 0) : cppMod r 4 ≤ 0 := by
  unfold cppMod
  rw [if_pos h]
  have := Int.emod_nonneg (-r) (by omega : (4:Int) ≠ 0)
  omega

theorem cppMod_four_gt (r : Int) (h : r < 0) : -4 < cppMod r 4 := by
  unfold cppMod
  rw [if_pos h]
  have := Int.emod_lt_of_pos (-r) (by omega : (0:Int) < 4)
  omega

theorem rotatePoint_congr (r r' : Int) (h : cppMod r 4 = cppMod r' 4)
    (p : IntPoint) : rotatePoint p r = rotatePoint p r' := by
  unfold rotatePoint
  rw [h]

theorem rotatePoint_of_neg (r : Int) (h : r < 0) (p : IntPoint) :
    rotatePoint p r = p := by
  have h1 := cppMod_four_nonpos r h
  have h2 := cppMod_four_gt r h
  unfold rotatePoint
  by_cases h0 : cppMod r 4 = 0
  · simp [h0]
  · rw [if_neg h0, if_neg (by omega), if_neg (by omega), if_neg (by omega)]

theorem rotatePoint_zero (p : IntPoint) : rotatePoint p 0 = p := by
  simp [rotatePoint, cppMod]

theorem rotateSize_congr (r r' : Int) (h : cppMod r 4 = cppMod r' 4)
    (s : IntPoint) : rotateSize s r = rotateSize s r' := by
  unfold rotateSize
  rw [h]

theorem cppMod_two_ne_one_of_nonpos (q : Int) (h : q ≤ 0) :
    cppMod q 2 ≠ 1 := by
  intro hc
  rcases lt_or_eq_of_le h with hlt | heq
  · unfold cppMod at hc
    rw [if_pos hlt] at hc
    have := Int.emod_nonneg (-q) (by omega : (2:Int) ≠ 0)
    omega
  · rw [heq] at hc
    simp [cppMod] at hc

theorem rotateSize_of_neg (r : Int) (h : r < 0) (s : IntPoint) :
    rotateSize s r = s := by
  have h1 := cppMod_four_nonpos r h
  unfold rotateSize
  rw [if_neg (cppMod_two_ne_one_of_nonpos _ h1)]

theorem rotateSize_zero (s : IntPoint) : rotateSize s 0 = s := by
  simp [rotateSize, cppMod]

theorem getOccupiedCellPositions_congr (fp : BuildingFootprint)
    (origin : IntPoint) (r r' : Int) (h : cppMod r 4 = cppMod r' 4) :
    getOccupiedCellPositions fp origin r =
      getOccupiedCellPositions fp origin r' := by
  unfold getOccupiedCellPositions
  simp only [rotatePoint_congr r r' h, rotateSize_congr r r' h]

theorem getOccupiedCellPositions_of_neg (fp : BuildingFootprint)
    (origin : IntPoint) (r : Int) (h : r < 0) :
    getOccupiedCellPositions fp origin r =
      getOccupiedCellPositions fp origin 0 := by
  unfold getOccupiedCellPositions
  simp only [rotatePoint_of_neg r h, rotateSize_of_neg r h,
    rotatePoint_zero, rotateSize_zero]

/-- Claim C2 is false as stated: with the explicit one-cell footprint
`[(0,1)]`, rotation `-1` (which the C++ `switch` default leaves
unrotated) differs from rotation `-1 + 4 = 3`. -/
theorem c2_rotation_counterexample :
    getOccupiedCellPositions { size := ⟨1, 1⟩, occupiedCells := [⟨0, 1⟩] }
        ⟨0, 0⟩ (-1) ≠
      getOccupiedCellPositions { size := ⟨1, 1⟩, occupiedCells := [⟨0, 1⟩] }
        ⟨0, 0⟩ (-1 + 4) := by
  decide

/-- Claim C2 (amended): for every origin, footprint and rotation
`r ≥ 0`, `getOccupiedCellPositions` is invariant under `r ↦ r + 4`;
a negative rotation is not normalized into `[0,4)` — the truncated
C++ `%` produces a negative remainder that falls into the rotation
switch's default case, so every negative rotation behaves exactly
like rotation 0. -/
theorem c2_rotation_closure_amended (fp : BuildingFootprint)
    (origin : IntPoint) (r : Int) :
    (0 ≤ r →
      getOccupiedCellPositions fp origin r =
        getOccupiedCellPositions fp origin (r + 4)) ∧
    (r < 0 →
      getOccupiedCellPositions fp origin r =
        getOccupiedCellPositions fp origin 0) := by
  constructor
  · intro h
    exact getOccupiedCellPositions_congr fp origin r (r + 4)
      (cppMod_add_four r h).symm
  · intro h
    exact getOccupiedCellPositions_of_neg fp origin r h

/-- Witness for the amended C2 at a concrete footprint and rotation. -/
theorem c2_rotation_closure_amended_witness :
    getOccupiedCellPositions { size := ⟨2, 1⟩, occupiedCells := [] }
        ⟨0, 0⟩ 2 =
      getOccupiedCellPositions { size := ⟨2, 1⟩, occupiedCells := [] }
        ⟨0, 0⟩ (2 + 4) :=
  (c2_rotation_closure_amended { size := ⟨2, 1⟩, occupiedCells := [] }
    ⟨0, 0⟩ 2).1 (by decide)

/-- Claim C1 fails on the code: `gridToWorld` returns the cell
center (`pos·cell + cell/2`) and `worldToGrid` adds another half
cell before flooring, so the round trip shifts in-bounds positions
by (+1,+1).  At grid (0,0) on a 3×3 grid the round trip yields
(1,1); the spec's own scenario point world (150,150,0) — the center
of cell (1,1) — maps to (2,2). -/
theorem c1_roundTrip_code_bug :
    worldToGrid mgr3x3 (gridToWorld mgr3x3 ⟨0, 0⟩ 0) = (⟨1, 1⟩, 0) ∧
    worldToGrid mgr3x3 ⟨150, 150, 0⟩ = (⟨2, 2⟩, 0) ∧
    ((⟨1, 1⟩ : IntPoint), (0 : Int)) ≠ ((⟨0, 0⟩ : IntPoint), (0 : Int)) := by
  refine ⟨?_, ?_, by decide⟩ <;>
    norm_num [worldToGrid, gridToWorld, clampInt, mgr3x3]

/-- Claim C9: out-of-bounds queries return a default-constructed
cell — unoccupied, no occupant, grid position (0,0). -/
theorem c9_getCellData_default (m : BuildingGridManager) (pos : IntPoint)
    (floorLevel : Int) (h : isValidGridPosition m pos floorLevel = false) :
    getCellData m pos floorLevel = {} ∧
    ({} : GridCellData).bIsOccupied = false ∧
    ({} : GridCellData).occupyingObject = none ∧
    ({} : GridCellData).gridPosition = ⟨0, 0⟩ := by
  refine ⟨?_, rfl, rfl, rfl⟩
  simp [getCellData, h]

/-- Witness for C9 at a concrete out-of-bounds query. -/
theorem c9_getCellData_default_witness :
    isValidGridPosition mgr3x3 ⟨5, 0⟩ 0 = false ∧
    getCellData mgr3x3 ⟨5, 0⟩ 0 = {} :=
  ⟨by decide, (c9_getCellData_default mgr3x3 ⟨5, 0⟩ 0 (by decide)).1⟩

/-! ### Adjacency: code check coincides with the spec's rule -/

theorem cellsToCheck_eq_claimNeighbors (direction : EGridDirection)
    (origin : IntPoint) :
    cellsToCheck direction origin = claimNeighbors direction origin := by
  cases direction <;> simp [cellsToCheck, claimNeighbors]

theorem cellHasBuildingOfType_iff (m : BuildingGridManager) (cell : IntPoint)
    (fl : Int) (t : EBuildingType) :
    cellHasBuildingOfType m cell fl t = true ↔
      claimNeighborMatch m fl cell t := by
  unfold cellHasBuildingOfType claimNeighborMatch
  rcases hobj : (m.gridData fl cell.y cell.x).occupyingObject with _ | id
  · simp [hobj]
  · rcases hb : m.buildings id with _ | b
    · simp [hobj, hb]
    · simp only [hobj, hb, Bool.and_eq_true, decide_eq_true_iff,
        Option.some.injEq]
      constructor
      · rintro ⟨⟨h1, h2⟩, h3⟩
        exact ⟨h1, h2, id, b, rfl, hb, h3⟩
      · rintro ⟨h1, h2, i, b2, hi, hb2, h3⟩
        subst hi
        rw [hb] at hb2
        cases hb2
        exact ⟨⟨h1, h2⟩, h3⟩

theorem requirementCheck_iff (m : BuildingGridManager)
    (req : AdjacencyRequirement) (origin : IntPoint) (fl : Int) :
    requirementCheck m req origin fl = true ↔
      (req.requiredBuildingType = EBuildingType.None ∨
        claimRequirementSatisfied m fl origin req) := by
  by_cases hN : req.requiredBuildingType = EBuildingType.None
  · simp [requirementCheck, hN]
  · have hany :
        ((cellsToCheck req.direction origin).any fun cell =>
          cellHasBuildingOfType m cell fl req.requiredBuildingType) = true ↔
        ∃ cell ∈ claimNeighbors req.direction origin,
          claimNeighborMatch m fl cell req.requiredBuildingType := by
      rw [cellsToCheck_eq_claimNeighbors, List.any_eq_true]
      exact exists_congr fun c =>
        and_congr_right fun _ => cellHasBuildingOfType_iff m c fl _
    unfold requirementCheck claimRequirementSatisfied
    rw [if_neg hN]
    cases hneg : req.bIsNegativeRequirement
    · simp only [Bool.false_eq_true, if_false]
      rw [hany]
      exact (or_iff_right hN).symm
    · simp only [if_true]
      rw [Bool.not_eq_true', Bool.eq_false_iff, Ne, hany]
      exact (or_iff_right hN).symm

/-- Claim C5: the adjacency check returns true iff every requirement
whose type is not `None` is satisfied in the spec's sense (positive:
some in-bounds checked neighbor is occupied by a building of the
exact required type; negative: no such neighbor; empty lists pass
vacuously). -/
theorem c5_adjacency_characterization (m : BuildingGridManager)
    (reqs : List AdjacencyRequirement) (origin : IntPoint) (fl : Int) :
    checkAdjacencyRequirements m reqs origin fl = true ↔
      ∀ req ∈ reqs, req.requiredBuildingType = EBuildingType.None ∨
        claimRequirementSatisfied m fl origin req := by
  rw [checkAdjacencyRequirements, List.all_eq_true]
  constructor
  · intro h req hr
    exact (requirementCheck_iff m req origin fl).mp (h req hr)
  · intro h req hr
    exact (requirementCheck_iff m req origin fl).mpr (h req hr)

/-! ### Default footprint (C10) -/

theorem rotatePoint_origin (rot : Int) :
    rotatePoint ⟨0, 0⟩ rot = ⟨0, 0⟩ := by
  simp only [rotatePoint]
  split_ifs <;> simp

theorem rotateSize_unit (rot : Int) : rotateSize ⟨1, 1⟩ rot = ⟨1, 1⟩ := by
  simp only [rotateSize]
  split_ifs <;> rfl

theorem getOccupiedCellPositions_default1x1 (origin : IntPoint) (rot : Int) :
    getOccupiedCellPositions { size := ⟨1, 1⟩, occupiedCells := [] }
      origin rot = [origin] := by
  unfold getOccupiedCellPositions
  rw [if_neg (by simp), rotateSize_unit]
  simp only [show Int.toNat 1 = 1 from rfl,
    show List.range 1 = [0] from rfl, List.flatMap_cons, List.flatMap_nil,
    List.map_cons, List.map_nil, List.append_nil, Nat.cast_zero,
    rotatePoint_origin, add_zero]
  simp [rotatePoint_origin]

/-- Claim C10: an asset-less building reports the default 1×1
footprint, whose occupied-cell set is exactly the origin for every
rotation, so `removeBuilding` on such an occupant leaves every cell
other than the occupant's origin cell untouched. -/
theorem c10_default_footprint (b : BuildingObject)
    (h : b.buildingAsset = none) :
    getFootprint b = { size := ⟨1, 1⟩, occupiedCells := [] } ∧
    (∀ origin rot,
      getOccupiedCellPositions (getFootprint b) origin rot = [origin]) ∧
    (∀ m pos fl id,
      (m.gridData fl pos.y pos.x).occupyingObject = some id →
      m.buildings id = some b →
      ∀ f y x, ¬(f = b.floorLevel ∧ y = b.gridOrigin.y ∧ x = b.gridOrigin.x) →
        (removeBuilding m pos fl).1.gridData f y x = m.gridData f y x) := by
  have hfp : getFootprint b = { size := ⟨1, 1⟩, occupiedCells := [] } := by
    simp [getFootprint, h]
  refine ⟨hfp, fun origin rot => by
    rw [hfp]; exact getOccupiedCellPositions_default1x1 origin rot, ?_⟩
  intro m pos fl id hobj hbld f y x hne
  unfold removeBuilding
  by_cases hv : isValidGridPosition m pos fl = true
  · cases hocc : (m.gridData fl pos.y pos.x).bIsOccupied
    · simp [hv, hocc]
    · simp only [hv, hocc, if_true, hobj, hbld]
      unfold markCellsAsUnoccupied
      rw [hfp, getOccupiedCellPositions_default1x1]
      simp only [List.foldl_cons, List.foldl_nil]
      by_cases hv2 : isValidGridPosition m b.gridOrigin b.floorLevel = true
      · simp [unoccupyCellStep, hv2, setCell, hne]
      · simp [unoccupyCellStep, hv2]
  · simp [hv]

/-- Witness for C10 at a concrete asset-less building. -/
theorem c10_default_footprint_witness :
    getFootprint ({ buildingAsset := none } : BuildingObject) =
      { size := ⟨1, 1⟩, occupiedCells := [] } :=
  (c10_default_footprint { buildingAsset := none } rfl).1

/-! ### Placement validation rejections (C3) -/

theorem areCellsAvailable_eq_false (m : BuildingGridManager)
    (fp : BuildingFootprint) (origin : IntPoint) (rot fl : Int)
    (h : ∃ cell ∈ getOccupiedCellPositions fp origin rot,
      isValidGridPosition m cell fl = false ∨
      (m.gridData fl cell.y cell.x).bIsOccupied = true ∨
      (0 < fl ∧ (m.gridData (fl - 1) cell.y cell.x).bIsOccupied = false)) :
    areCellsAvailableForBuilding m fp origin rot fl = false := by
  obtain ⟨cell, hmem, hbad⟩ := h
  rw [Bool.eq_false_iff]
  intro hall
  rw [areCellsAvailableForBuilding, List.all_eq_true] at hall
  have hcell := hall cell hmem
  simp only [Bool.and_eq_true, Bool.not_eq_true', Bool.or_eq_true,
    decide_eq_true_iff] at hcell
  obtain ⟨⟨hv, hocc⟩, hsup⟩ := hcell
  rcases hbad with hb | hb | hb
  · rw [hv] at hb
    cases hb
  · rw [hocc] at hb
    cases hb
  · rcases hsup with hs | hs
    · rw [decide_eq_false_iff_not] at hs
      exact hs hb.1
    · rw [hs] at hb
      cases hb.2

/-- Claim C3: with the resolved placement floor `f`,
`canPlaceBuilding` returns false whenever some footprint cell is out
of bounds, already occupied, or (for `f > 0`) sits above an
unoccupied cell on floor `f - 1`. -/
theorem c3_canPlaceBuilding_rejects (m : BuildingGridManager)
    (asset : BuildingObjectAsset) (loc : FVector) (rot floorIn : Int)
    (h : ∃ cell ∈ getOccupiedCellPositions asset.footprint
        (worldToGrid m loc).1 rot,
      isValidGridPosition m cell
          (if floorIn < 0 then (worldToGrid m loc).2 else floorIn) = false ∨
      (m.gridData (if floorIn < 0 then (worldToGrid m loc).2 else floorIn)
          cell.y cell.x).bIsOccupied = true ∨
      (0 < (if floorIn < 0 then (worldToGrid m loc).2 else floorIn) ∧
        (m.gridData
            ((if floorIn < 0 then (worldToGrid m loc).2 else floorIn) - 1)
            cell.y cell.x).bIsOccupied = false)) :
    canPlaceBuilding m (some asset) loc rot floorIn = false := by
  have ha := areCellsAvailable_eq_false m asset.footprint
    (worldToGrid m loc).1 rot _ h
  simp [canPlaceBuilding, ha]

/-- Witness for C3: a 1×1 room on floor 1 of the empty 3×3 grid sits
above an unoccupied ground cell, so placement is rejected. -/
theorem c3_canPlaceBuilding_rejects_witness :
    canPlaceBuilding mgr3x3 (some asset1x1) ⟨150, 150, 0⟩ 0 1 = false :=
  c3_canPlaceBuilding_rejects mgr3x3 asset1x1 ⟨150, 150, 0⟩ 0 1
    ⟨⟨2, 2⟩, by norm_num [getOccupiedCellPositions, asset1x1, rotateSize,
        rotatePoint, cppMod, worldToGrid, mgr3x3, clampInt],
      Or.inr (Or.inr ⟨by norm_num, by norm_num [mgr3x3]⟩)⟩

/-! ### Occupancy consistency (C4) -/

theorem foldOcc_consistent (m : BuildingGridManager) (fl : Int) (id : Nat)
    (o : IntPoint) (l : List IntPoint) :
    ∀ g, occupancyConsistentG g →
      occupancyConsistentG (l.foldl (occupyCellStep m fl id o) g) := by
  induction l with
  | nil => intro g hg; exact hg
  | cons c t ih =>
      intro g hg
      rw [List.foldl_cons]
      apply ih
      intro f y x
      unfold occupyCellStep
      by_cases hvc : isValidGridPosition m c fl = true
      · rw [if_pos hvc]
        unfold setCell
        by_cases hslot : f = fl ∧ y = c.y ∧ x = c.x
        · rw [if_pos hslot]
          simp
        · rw [if_neg hslot]
          exact hg f y x
      · rw [if_neg hvc]
        exact hg f y x

theorem foldUnocc_consistent (m : BuildingGridManager) (fl : Int)
    (l : List IntPoint) :
    ∀ g, occupancyConsistentG g →
      occupancyConsistentG (l.foldl (unoccupyCellStep m fl) g) := by
  induction l with
  | nil => intro g hg; exact hg
  | cons c t ih =>
      intro g hg
      rw [List.foldl_cons]
      apply ih
      intro f y x
      unfold unoccupyCellStep
      by_cases hvc : isValidGridPosition m c fl = true
      · rw [if_pos hvc]
        unfold setCell
        by_cases hslot : f = fl ∧ y = c.y ∧ x = c.x
        · rw [if_pos hslot]
          simp
        · rw [if_neg hslot]
          exact hg f y x
      · rw [if_neg hvc]
        exact hg f y x

theorem markCellsAsOccupied_consistent (m : BuildingGridManager)
    (fp : BuildingFootprint) (o : IntPoint) (r fl : Int) (id : Nat)
    (h : occupancyConsistent m) :
    occupancyConsistent (markCellsAsOccupied m fp o r fl id) :=
  foldOcc_consistent m fl id o (getOccupiedCellPositions fp o r)
    m.gridData h

theorem markCellsAsUnoccupied_consistent (m : BuildingGridManager)
    (fp : BuildingFootprint) (o : IntPoint) (r fl : Int)
    (h : occupancyConsistent m) :
    occupancyConsistent (markCellsAsUnoccupied m fp o r fl) :=
  foldUnocc_consistent m fl (getOccupiedCellPositions fp o r)
    m.gridData h

/-- Claim C4: the occupancy/occupant-reference consistency invariant
holds after `initializeGrid` and is preserved by every
`placeBuilding` and `removeBuilding` call. -/
theorem c4_occupancy_consistency (m : BuildingGridManager) (sx sy : Int)
    (cs : ℚ) (mf : Int) (asset : Option BuildingObjectAsset)
    (loc : FVector) (rot floorIn : Int) (pos : IntPoint) (fl : Int) :
    occupancyConsistent (initializeGrid m sx sy cs mf) ∧
    (occupancyConsistent m →
      occupancyConsistent (placeBuilding m asset loc rot floorIn).1) ∧
    (occupancyConsistent m →
      occupancyConsistent (removeBuilding m pos fl).1) := by
  refine ⟨?_, ?_, ?_⟩
  · intro f y x
    simp [initializeGrid]
  · intro h
    unfold placeBuilding
    split
    · split
      · exact h
      · exact markCellsAsOccupied_consistent _ _ _ _ _ _ h
    · exact h
  · intro h
    unfold removeBuilding
    split
    · split
      · split
        · exact h
        · split
          · exact h
          · exact markCellsAsUnoccupied_consistent _ _ _ _ _ h
      · exact h
    · exact h

/-- Witness for C4: consistency after initializing a 3×3 grid and
then placing a 1×1 room on it. -/
theorem c4_occupancy_consistency_witness :
    occupancyConsistent (placeBuilding (initializeGrid mgr3x3 3 3 100 2)
      (some asset1x1) ⟨150, 150, 0⟩ 0 0).1 :=
  (c4_occupancy_consistency (initializeGrid mgr3x3 3 3 100 2) 3 3 100 2
      (some asset1x1) ⟨150, 150, 0⟩ 0 0 ⟨0, 0⟩ 0).2.1
    ((c4_occupancy_consistency mgr3x3 3 3 100 2 (some asset1x1)
        ⟨150, 150, 0⟩ 0 0 ⟨0, 0⟩ 0).1)

/-! ### Idempotent removal (C7) -/

theorem foldUnocc_cases (m : BuildingGridManager) (fl : Int)
    (l : List IntPoint) :
    ∀ g f y x,
      (l.foldl (unoccupyCellStep m fl) g) f y x = g f y x ∨
      (((l.foldl (unoccupyCellStep m fl) g) f y x).bIsOccupied = false ∧
        ((l.foldl (unoccupyCellStep m fl) g) f y x).occupyingObject = none) := by
  induction l with
  | nil => intro g f y x; left; rfl
  | cons c t ih =>
      intro g f y x
      rw [List.foldl_cons]
      rcases ih (unoccupyCellStep m fl g c) f y x with h1 | h2
      · rw [h1]
        unfold unoccupyCellStep
        by_cases hvc : isValidGridPosition m c fl = true
        · rw [if_pos hvc]
          unfold setCell
          by_cases hslot : f = fl ∧ y = c.y ∧ x = c.x
          · rw [if_pos hslot]
            right
            exact ⟨rfl, rfl⟩
          · rw [if_neg hslot]
            left
            rfl
        · rw [if_neg hvc]
          left
          rfl
      · right
        exact h2

/-- Claim C7: `removeBuilding` fails without touching the state on an
out-of-bounds position or an unoccupied cell, and after a successful
removal a second call on the same position fails and returns the
state unchanged. -/
theorem c7_removeBuilding_idempotent (m : BuildingGridManager)
    (pos : IntPoint) (fl : Int) :
    (isValidGridPosition m pos fl = false →
      removeBuilding m pos fl = (m, false)) ∧
    ((m.gridData fl pos.y pos.x).bIsOccupied = false →
      removeBuilding m pos fl = (m, false)) ∧
    (∀ m', removeBuilding m pos fl = (m', true) →
      removeBuilding m' pos fl = (m', false)) := by
  refine ⟨?_, ?_, ?_⟩
  · intro h
    simp [removeBuilding, h]
  · intro h
    by_cases hv : isValidGridPosition m pos fl = true
    · simp [removeBuilding, hv, h]
    · simp [removeBuilding, hv]
  · intro m' hrem
    by_cases hv : isValidGridPosition m pos fl = true
    case neg => simp [removeBuilding, hv] at hrem
    case pos =>
    cases hocc : (m.gridData fl pos.y pos.x).bIsOccupied
    case false => simp [removeBuilding, hv, hocc] at hrem
    case true =>
    rcases hobj : (m.gridData fl pos.y pos.x).occupyingObject with _ | id
    case none => simp [removeBuilding, hv, hocc, hobj] at hrem
    case some =>
    rcases hb : m.buildings id with _ | building
    case none => simp [removeBuilding, hv, hocc, hobj, hb] at hrem
    case some =>
    have key : ∀ M : BuildingGridManager,
        M.gridSizeX = m.gridSizeX → M.gridSizeY = m.gridSizeY →
        M.maxFloors = m.maxFloors → M.buildings id = none →
        (M.gridData fl pos.y pos.x = m.gridData fl pos.y pos.x ∨
          (M.gridData fl pos.y pos.x).bIsOccupied = false) →
        removeBuilding M pos fl = (M, false) := by
      intro M hsx hsy hmf hbid hcell
      have hvM : isValidGridPosition M pos fl = true := by
        unfold isValidGridPosition at hv ⊢
        rw [hsx, hsy, hmf]
        exact hv
      rcases hcell with hsame | hun
      · simp [removeBuilding, hvM, hsame, hocc, hobj, hbid]
      · simp [removeBuilding, hvM, hun]
    simp only [removeBuilding, hv, hocc, hobj, hb, if_true,
      Prod.mk.injEq, and_true] at hrem
    subst hrem
    apply key
    · rfl
    · rfl
    · rfl
    · simp
    · rcases foldUnocc_cases m building.floorLevel
          (getOccupiedCellPositions (getFootprint building)
            building.gridOrigin building.gridRotation)
          m.gridData fl pos.y pos.x with h | h
      · exact Or.inl h
      · exact Or.inr h.1

/-- Witness for C7: removing the single occupant of a 1×1 grid
succeeds once and fails the second time with the state unchanged. -/
theorem c7_removeBuilding_idempotent_witness :
    removeBuilding (removeBuilding mgrOccupied ⟨0, 0⟩ 0).1 ⟨0, 0⟩ 0 =
      ((removeBuilding mgrOccupied ⟨0, 0⟩ 0).1, false) :=
  (c7_removeBuilding_idempotent mgrOccupied ⟨0, 0⟩ 0).2.2
    (removeBuilding mgrOccupied ⟨0, 0⟩ 0).1 rfl

/-! ### Staff efficiency (C8) -/

theorem length_filter_ne_lt (s : Nat) (l : List Nat) (h : s ∈ l) :
    (l.filter (fun t => t ≠ s)).length < l.length := by
  induction l with
  | nil => cases h
  | cons a t ih =>
      by_cases ha : a = s
      · rw [List.filter_cons_of_neg (by simp [ha])]
        have := List.length_filter_le (fun t => t ≠ s) t
        simp only [List.length_cons]
        omega
      · rw [List.filter_cons_of_pos (by simp [ha])]
        have hs : s ∈ t := by
          rcases List.mem_cons.mp h with h1 | h1
          · exact absurd h1.symm ha
          · exact h1
        have := ih hs
        simp only [List.length_cons]
        omega

theorem filter_ne_of_not_mem (s : Nat) (l : List Nat) (h : s ∉ l) :
    l.filter (fun t => t ≠ s) = l := by
  apply List.filter_eq_self.mpr
  intro a ha
  have hne : a ≠ s := fun has => h (has ▸ ha)
  simp [hne]

theorem foldl_min_mul (n : ℚ) (l : List (Nat × Int)) :
    ∀ acc : ℚ,
      l.foldl (fun staffEfficiency req =>
          min staffEfficiency (min 1 (n / (req.2 : ℚ)) * 100)) (acc * 100) =
        (l.foldl (fun a req => min a (min 1 (n / (req.2 : ℚ)))) acc) * 100 := by
  induction l with
  | nil => intro acc; rfl
  | cons r t ih =>
      intro acc
      rw [List.foldl_cons, List.foldl_cons,
        show min (acc * 100) (min 1 (n / (r.2 : ℚ)) * 100) =
          min acc (min 1 (n / (r.2 : ℚ))) * 100 from
          (min_mul_of_nonneg _ _ (by norm_num)).symm]
      exact ih _

theorem updateEfficiency_eq (b : BuildingObject)
    (asset : BuildingObjectAsset) (hA : b.buildingAsset = some asset) :
    (updateEfficiency b).operationalEfficiency =
      claimEfficiency (b.assignedStaff.length : ℚ)
        asset.requiredStaffTypes := by
  unfold updateEfficiency claimEfficiency
  rw [hA]
  have h := foldl_min_mul (b.assignedStaff.length : ℚ)
    asset.requiredStaffTypes 1
  rw [one_mul] at h
  simp only [List.foldl_map]
  rw [h, mul_comm]

/-- Claim C8: after a staff assignment that adds a member, or a
removal that removes one, the operational efficiency equals
`100 × min over requirements of min(1, staffCount / required)`; the
formula is 100 when the asset has no staff requirements; and once the
efficiency agrees with the formula, every further
assign/remove call (including the no-op cases) keeps it agreeing. -/
theorem c8_efficiency_formula (b : BuildingObject)
    (asset : BuildingObjectAsset) (hA : b.buildingAsset = some asset)
    (s : Nat) :
    (s ∉ b.assignedStaff →
      ((assignStaffMember b (some s)).1).operationalEfficiency =
        claimEfficiency
          (((assignStaffMember b (some s)).1).assignedStaff.length : ℚ)
          asset.requiredStaffTypes) ∧
    (s ∈ b.assignedStaff →
      ((removeStaffMember b (some s)).1).operationalEfficiency =
        claimEfficiency
          (((removeStaffMember b (some s)).1).assignedStaff.length : ℚ)
          asset.requiredStaffTypes) ∧
    (asset.requiredStaffTypes = [] →
      ∀ n : ℚ, claimEfficiency n asset.requiredStaffTypes = 100) ∧
    (b.operationalEfficiency =
        claimEfficiency (b.assignedStaff.length : ℚ)
          asset.requiredStaffTypes →
      ∀ staffMember : Option Nat,
        ((assignStaffMember b staffMember).1).operationalEfficiency =
          claimEfficiency
            (((assignStaffMember b staffMember).1).assignedStaff.length : ℚ)
            asset.requiredStaffTypes ∧
        ((removeStaffMember b staffMember).1).operationalEfficiency =
          claimEfficiency
            (((removeStaffMember b staffMember).1).assignedStaff.length : ℚ)
            asset.requiredStaffTypes) := by
  have hassign : ∀ t : Nat, t ∉ b.assignedStaff →
      ((assignStaffMember b (some t)).1).operationalEfficiency =
        claimEfficiency
          (((assignStaffMember b (some t)).1).assignedStaff.length : ℚ)
          asset.requiredStaffTypes := by
    intro t ht
    rw [assignStaffMember]
    rw [if_neg ht]
    exact updateEfficiency_eq _ asset hA
  have hremove : ∀ t : Nat, t ∈ b.assignedStaff →
      ((removeStaffMember b (some t)).1).operationalEfficiency =
        claimEfficiency
          (((removeStaffMember b (some t)).1).assignedStaff.length : ℚ)
          asset.requiredStaffTypes := by
    intro t ht
    rw [removeStaffMember]
    rw [if_pos (length_filter_ne_lt t b.assignedStaff ht)]
    exact updateEfficiency_eq _ asset hA
  refine ⟨hassign s, hremove s, ?_, ?_⟩
  · intro hempty n
    rw [hempty]
    simp [claimEfficiency]
  · intro hinv staffMember
    rcases staffMember with _ | t
    · exact ⟨hinv, hinv⟩
    · constructor
      · by_cases ht : t ∈ b.assignedStaff
        · rw [assignStaffMember, if_pos ht]
          exact hinv
        · exact hassign t ht
      · by_cases ht : t ∈ b.assignedStaff
        · exact hremove t ht
        · rw [removeStaffMember,
            if_neg (by rw [filter_ne_of_not_mem t _ ht]; omega)]
          exact hinv

/-- Witness for C8: an asset requiring two staff; assigning the first
member sets the efficiency to 50 (= `claimEfficiency 1 [(0,2)]`). -/
theorem c8_efficiency_formula_witness :
    ((assignStaffMember bldgStaff (some 7)).1).operationalEfficiency = 50 :=
  Eq.trans
    ((c8_efficiency_formula bldgStaff assetStaff2 rfl 7).1 (by decide))
    (by norm_num [claimEfficiency, assignStaffMember, updateEfficiency,
      bldgStaff, assetStaff2, min_def])

/-! ### The placeBuilding contract (C6) -/

theorem foldOcc_stable (m : BuildingGridManager) (fl : Int) (id : Nat)
    (o : IntPoint) (l : List IntPoint) :
    ∀ g f y x,
      (g f y x).bIsOccupied = true →
      (g f y x).occupyingObject = some id →
      (g f y x).objectOrigin = o →
      (((l.foldl (occupyCellStep m fl id o) g) f y x).bIsOccupied = true ∧
        ((l.foldl (occupyCellStep m fl id o) g) f y x).occupyingObject =
          some id ∧
        ((l.foldl (occupyCellStep m fl id o) g) f y x).objectOrigin = o) := by
  induction l with
  | nil => intro g f y x h1 h2 h3; exact ⟨h1, h2, h3⟩
  | cons c t ih =>
      intro g f y x h1 h2 h3
      rw [List.foldl_cons]
      have hstep :
          ((occupyCellStep m fl id o g c) f y x).bIsOccupied = true ∧
          ((occupyCellStep m fl id o g c) f y x).occupyingObject = some id ∧
          ((occupyCellStep m fl id o g c) f y x).objectOrigin = o := by
        unfold occupyCellStep
        by_cases hvc : isValidGridPosition m c fl = true
        · rw [if_pos hvc]
          unfold setCell
          by_cases hslot : f = fl ∧ y = c.y ∧ x = c.x
          · rw [if_pos hslot]
            exact ⟨rfl, rfl, rfl⟩
          · rw [if_neg hslot]
            exact ⟨h1, h2, h3⟩
        · rw [if_neg hvc]
          exact ⟨h1, h2, h3⟩
      exact ih _ f y x hstep.1 hstep.2.1 hstep.2.2

theorem foldOcc_mem (m : BuildingGridManager) (fl : Int) (id : Nat)
    (o : IntPoint) (l : List IntPoint) :
    ∀ g c, c ∈ l → isValidGridPosition m c fl = true →
      (((l.foldl (occupyCellStep m fl id o) g) fl c.y c.x).bIsOccupied =
          true ∧
        ((l.foldl (occupyCellStep m fl id o) g) fl c.y c.x).occupyingObject =
          some id ∧
        ((l.foldl (occupyCellStep m fl id o) g) fl c.y c.x).objectOrigin =
          o) := by
  induction l with
  | nil => intro g c hc; cases hc
  | cons a t ih =>
      intro g c hc hvc
      rw [List.foldl_cons]
      by_cases hct : c ∈ t
      · exact ih _ c hct hvc
      · have hca : c = a := by
          rcases List.mem_cons.mp hc with h | h
          · exact h
          · exact absurd h hct
        subst hca
        refine foldOcc_stable m fl id o t _ fl c.y c.x ?_ ?_ ?_ <;>
          (unfold occupyCellStep
           rw [if_pos hvc]
           unfold setCell
           rw [if_pos ⟨rfl, rfl, rfl⟩])

theorem areCellsAvailable_valid (m : BuildingGridManager)
    (fp : BuildingFootprint) (origin : IntPoint) (rot fl : Int)
    (h : areCellsAvailableForBuilding m fp origin rot fl = true) :
    ∀ c ∈ getOccupiedCellPositions fp origin rot,
      isValidGridPosition m c fl = true := by
  intro c hc
  rw [areCellsAvailableForBuilding, List.all_eq_true] at h
  have hcell := h c hc
  simp only [Bool.and_eq_true] at hcell
  exact hcell.1.1

/-- Claim C6: `placeBuilding` returns no entity exactly when
`canPlaceBuilding` is false and then leaves the state untouched; on
success it returns a fresh entity whose grid origin, floor and
rotation are the resolved placement values, with every footprint
cell marked occupied, back-referencing the entity and carrying the
shared origin point. -/
theorem c6_placeBuilding_contract (m : BuildingGridManager)
    (asset : BuildingObjectAsset) (loc : FVector) (rot floorIn : Int) :
    (canPlaceBuilding m (some asset) loc rot floorIn = false →
      placeBuilding m (some asset) loc rot floorIn = (m, none)) ∧
    (canPlaceBuilding m (some asset) loc rot floorIn = true →
      ∃ id b,
        (placeBuilding m (some asset) loc rot floorIn).2 = some id ∧
        (placeBuilding m (some asset) loc rot floorIn).1.buildings id =
          some b ∧
        b.gridOrigin = (worldToGrid m loc).1 ∧
        b.floorLevel =
          (if floorIn < 0 then (worldToGrid m loc).2 else floorIn) ∧
        b.gridRotation = rot ∧
        ∀ c ∈ getOccupiedCellPositions asset.footprint
            (worldToGrid m loc).1 rot,
          ((placeBuilding m (some asset) loc rot floorIn).1.gridData
              (if floorIn < 0 then (worldToGrid m loc).2 else floorIn)
              c.y c.x).bIsOccupied = true ∧
          ((placeBuilding m (some asset) loc rot floorIn).1.gridData
              (if floorIn < 0 then (worldToGrid m loc).2 else floorIn)
              c.y c.x).occupyingObject = some id ∧
          ((placeBuilding m (some asset) loc rot floorIn).1.gridData
              (if floorIn < 0 then (worldToGrid m loc).2 else floorIn)
              c.y c.x).objectOrigin = (worldToGrid m loc).1) := by
  constructor
  · intro h
    rw [placeBuilding, if_neg (by simp [h])]
  · intro h
    obtain ⟨hav, hadj⟩ :
        areCellsAvailableForBuilding m asset.footprint (worldToGrid m loc).1
          rot (if floorIn < 0 then (worldToGrid m loc).2 else floorIn) =
            true ∧
        checkAdjacencyRequirements m asset.adjacencyRequirements
          (worldToGrid m loc).1
          (if floorIn < 0 then (worldToGrid m loc).2 else floorIn) = true := by
      have h' := h
      simp only [canPlaceBuilding, Bool.and_eq_true] at h'
      exact h'
    have hvalid := areCellsAvailable_valid m asset.footprint
      (worldToGrid m loc).1 rot
      (if floorIn < 0 then (worldToGrid m loc).2 else floorIn) hav
    refine ⟨m.nextBuildingId,
      { buildingAsset := some asset
        buildingType := asset.buildingType
        gridOrigin := (worldToGrid m loc).1
        floorLevel := if floorIn < 0 then (worldToGrid m loc).2 else floorIn
        gridRotation := rot
        buildingState := 0
        operationalEfficiency := 100
        assignedStaff := []
        currentGuests := [] }, ?_, ?_, rfl, rfl, rfl, ?_⟩
    · simp only [placeBuilding, h, if_true]
    · simp only [placeBuilding, h, if_true]
      simp [markCellsAsOccupied]
    · intro c hc
      simp only [placeBuilding, h, if_true]
      exact foldOcc_mem _
        (if floorIn < 0 then (worldToGrid m loc).2 else floorIn)
        m.nextBuildingId (worldToGrid m loc).1
        (getOccupiedCellPositions asset.footprint (worldToGrid m loc).1 rot)
        _ c hc (hvalid c hc)

/-- Witness for C6: on the empty 3×3 grid, placing a 1×1 room at
world (150,150,0) succeeds and the returned entity id is 0. -/
theorem c6_placeBuilding_contract_witness :
    ∃ id b,
      (placeBuilding mgr3x3 (some asset1x1) ⟨150, 150, 0⟩ 0 0).2 = some id ∧
      (placeBuilding mgr3x3 (some asset1x1) ⟨150, 150, 0⟩ 0 0).1.buildings
        id = some b ∧
      b.gridOrigin = (worldToGrid mgr3x3 ⟨150, 150, 0⟩).1 ∧
      b.floorLevel =
        (if (0 : Int) < 0 then (worldToGrid mgr3x3 ⟨150, 150, 0⟩).2
          else (0 : Int)) ∧
      b.gridRotation = 0 ∧
      ∀ c ∈ getOccupiedCellPositions asset1x1.footprint
          (worldToGrid mgr3x3 ⟨150, 150, 0⟩).1 0,
        ((placeBuilding mgr3x3 (some asset1x1) ⟨150, 150, 0⟩ 0 0).1.gridData
            (if (0 : Int) < 0 then (worldToGrid mgr3x3 ⟨150, 150, 0⟩).2
              else (0 : Int)) c.y c.x).bIsOccupied = true ∧
        ((placeBuilding mgr3x3 (some asset1x1) ⟨150, 150, 0⟩ 0 0).1.gridData
            (if (0 : Int) < 0 then (worldToGrid mgr3x3 ⟨150, 150, 0⟩).2
              else (0 : Int)) c.y c.x).occupyingObject = some id ∧
        ((placeBuilding mgr3x3 (some asset1x1) ⟨150, 150, 0⟩ 0 0).1.gridData
            (if (0 : Int) < 0 then (worldToGrid mgr3x3 ⟨150, 150, 0⟩).2
              else (0 : Int)) c.y c.x).objectOrigin =
          (worldToGrid mgr3x3 ⟨150, 150, 0⟩).1 :=
  (c6_placeBuilding_contract mgr3x3 asset1x1 ⟨150, 150, 0⟩ 0 0).2
    (by norm_num [canPlaceBuilding, areCellsAvailableForBuilding,
      checkAdjacencyRequirements, getOccupiedCellPositions, rotateSize,
      rotatePoint, cppMod, worldToGrid, clampInt, isValidGridPosition,
      mgr3x3, asset1x1])

end SereneSprings
